import Mathlib

/-!
Shallow embedding of the KeyStoreService layer of the Android system keystore
(src/keystore/key_store_service.cpp).  Pure control flow of the service entry
points is translated into Lean functions; the external collaborators
(KeymasterDevice, BlobStore, PermissionOracle, AuthTokenTable) are modelled as
explicit inputs: each device or store call that can fail is represented by a
result value supplied to the function, and the OperationMap is passed as an
explicit list.  Error codes are machine integers of the unified
KeyStoreServiceReturnCode space: positive values are ResponseCode values,
negative values are keymaster ErrorCode values, and 0 is keymaster OK, which
the KeyStoreServiceReturnCode constructor normalises to NO_ERROR.
-/

namespace Keystore

/-- kMaxOperations in key_store_service.cpp: bound on concurrent operations. -/
def maxOperations : Nat := 15

/-- Modelled from the spec: ResponseCode NoError.  The numeric values of the
ResponseCode taxonomy live in include/keystore/keystore.h, which is part of
this repository but not under src/; the spec fixes the taxonomy (NoError,
Locked, Uninitialized, SystemError, ...) and that state values coincide with
response codes, with NoError = 1, Locked = 2, Uninitialized = 3. -/
def responseNoError : Int := 1

/-- Modelled from the spec: ResponseCode Locked. -/
def responseLocked : Int := 2

/-- Modelled from the spec: ResponseCode Uninitialized. -/
def responseUninitialized : Int := 3

/-- Modelled from the spec: ResponseCode SystemError. -/
def responseSystemError : Int := 4

/-- Modelled from the spec: ResponseCode PermissionDenied. -/
def responsePermissionDenied : Int := 6

/-- Modelled from the spec: ResponseCode KeyNotFound. -/
def responseKeyNotFound : Int := 7

/-- Modelled from the spec: ResponseCode OpAuthNeeded. -/
def responseOpAuthNeeded : Int := 15

/-- Modelled from the spec: the full list of ResponseCode values of the
service taxonomy (NoError, Locked, Uninitialized, SystemError, ProtocolError,
PermissionDenied, KeyNotFound, ValueCorrupted, UndefinedAction,
WrongPassword 0 to 3, SignatureInvalid, OpAuthNeeded); all are positive. -/
def responseCodeValues : List Int := [1, 2, 3, 4, 5, 6, 7, 8, 9, 10, 11, 12, 13, 14, 15]

/-- Keymaster ErrorCode OK (external keymaster HAL definitions). -/
def errOk : Int := 0

/-- Keymaster ErrorCode KEY_USER_NOT_AUTHENTICATED. -/
def errKeyUserNotAuthenticated : Int := -26

/-- Keymaster ErrorCode INVALID_OPERATION_HANDLE. -/
def errInvalidOperationHandle : Int := -28

/-- Keymaster ErrorCode TOO_MANY_OPERATIONS. -/
def errTooManyOperations : Int := -31

/-- Keymaster ErrorCode INVALID_ARGUMENT. -/
def errInvalidArgument : Int := -38

/-- Keymaster ErrorCode KEY_REQUIRES_UPGRADE. -/
def errKeyRequiresUpgrade : Int := -62

/-- Keymaster ErrorCode UNKNOWN_ERROR. -/
def errUnknownError : Int := -1000

/-- KeyStoreServiceReturnCode construction from a keymaster ErrorCode:
ErrorCode OK is normalised to ResponseCode NO_ERROR; every other value is
kept verbatim (keystore_return_types.h). -/
def ksrc (e : Int) : Int := if e = errOk then responseNoError else e

/-- Keymaster tag NO_AUTH_REQUIRED (tag number without the type bits). -/
def tagNoAuthRequired : Nat := 503

/-- Keymaster tag AUTH_TOKEN (tag number without the type bits). -/
def tagAuthToken : Nat := 703

/-- Keymaster tag ATTESTATION_APPLICATION_ID (tag number without the type bits). -/
def tagAttestationApplicationId : Nat := 709

/-- Keymaster tag RESET_SINCE_ID_ROTATION (tag number without the type bits). -/
def tagResetSinceIdRotation : Nat := 1004

/-- KEYSTORE_FLAG_ENCRYPTED from the keystore flag word. -/
def KEYSTORE_FLAG_ENCRYPTED : Nat := 1

/-- KEYSTORE_FLAG_CRITICAL_TO_DEVICE_ENCRYPTION from the keystore flag word. -/
def KEYSTORE_FLAG_CRITICAL_TO_DEVICE_ENCRYPTION : Nat := 8

/-- Test of a single keystore flag bit in the caller flag word. -/
def flagSet (flags mask : Nat) : Bool := decide (flags &&& mask ≠ 0)

/-- AID_SYSTEM: uid of the system principal. -/
def AID_SYSTEM : Nat := 1000

/-- AID_USER: the uid stride between Android users. -/
def AID_USER : Nat := 100000

/-- get_app_id: the per-user application id component of a uid. -/
def get_app_id (uid : Nat) : Nat := uid % AID_USER

/-- get_user_id: the Android user id component of a uid. -/
def get_user_id (uid : Nat) : Nat := uid / AID_USER

/-- containsTag from key_store_service.cpp: does the parameter list carry the
given tag. -/
def containsTag (params : List Nat) (tag : Nat) : Bool := decide (tag ∈ params)

/-- isAuthenticationBound from key_store_service.cpp: the parameter list lacks
the NO_AUTH_REQUIRED tag. -/
def isAuthenticationBound (params : List Nat) : Bool :=
  !containsTag params tagNoAuthRequired

/-- checkAllowedOperationParams from key_store_service.cpp: true iff the
caller parameter list carries none of the keystore-owned tags
ATTESTATION_APPLICATION_ID, AUTH_TOKEN, RESET_SINCE_ID_ROTATION. -/
def checkAllowedOperationParams (params : List Nat) : Bool :=
  decide (tagAttestationApplicationId ∉ params ∧ tagAuthToken ∉ params ∧
          tagResetSinceIdRotation ∉ params)

/-- The boolean flag set of a persisted Blob as composed by the key creation
entry points (the info prefix is not involved there). -/
structure CreatedBlobFlags where
  encrypted : Bool
  superEncrypted : Bool
  fallback : Bool
  critical : Bool
deriving DecidableEq

/-- Flag composition of the KeymasterBound blob in the hidl callback of
KeyStoreService generateKey: a fresh Blob (all flags clear), then
setFallback, setCriticalToDeviceEncryption from the caller flag word,
conditional setSuperEncrypted, then setEncrypted from the caller flag word. -/
def generateKeyBlobFlags (params : List Nat) (flags : Nat) (usingFallback : Bool) :
    CreatedBlobFlags :=
  let b0 : CreatedBlobFlags := ⟨false, false, false, false⟩
  let b1 := { b0 with fallback := usingFallback }
  let b2 := { b1 with critical := flagSet flags KEYSTORE_FLAG_CRITICAL_TO_DEVICE_ENCRYPTION }
  let b3 := if isAuthenticationBound params && !b2.critical then
              { b2 with superEncrypted := true }
            else b2
  { b3 with encrypted := flagSet flags KEYSTORE_FLAG_ENCRYPTED }

/-- Flag composition of the KeymasterBound blob in the hidl callback of
KeyStoreService importKey; same sequence of setter calls as generateKey. -/
def importKeyBlobFlags (params : List Nat) (flags : Nat) (usingFallback : Bool) :
    CreatedBlobFlags :=
  let b0 : CreatedBlobFlags := ⟨false, false, false, false⟩
  let b1 := { b0 with fallback := usingFallback }
  let b2 := { b1 with critical := flagSet flags KEYSTORE_FLAG_CRITICAL_TO_DEVICE_ENCRYPTION }
  let b3 := if isAuthenticationBound params && !b2.critical then
              { b2 with superEncrypted := true }
            else b2
  { b3 with encrypted := flagSet flags KEYSTORE_FLAG_ENCRYPTED }

/-- Modelled from the spec: the OperationMap is kept outside src/ (operation.cpp);
per the spec it is a registry ordered by begin time whose getOldestPruneable
returns the pruneable operation whose begin completed earliest.  Here the map
is a list of pruneable bits, oldest first; pruneOp removes the oldest
pruneable operation, returning none when no operation is pruneable.  This also
embeds KeyStoreService pruneOperation, which reports failure exactly when the
abort of the oldest pruneable operation removed nothing. -/
def pruneOp : List Bool → Option (List Bool)
  | [] => none
  | b :: rest => if b then some rest else (pruneOp rest).map (fun l => b :: l)

/-- hasPruneableOperation of the OperationMap: some operation is pruneable. -/
def hasPruneable (ops : List Bool) : Bool := ops.any (fun b => b)

/-- The pre-begin pruning loop of KeyStoreService begin: while the operation
count is at least kMaxOperations, prune; stop when pruning fails.  The fuel
argument bounds the iteration count; begin supplies the operation count,
which always suffices since each successful prune removes one operation. -/
def prePrune : Nat → List Bool → List Bool
  | 0, ops => ops
  | fuel + 1, ops =>
    if maxOperations ≤ ops.length then
      match pruneOp ops with
      | some ops2 => prePrune fuel ops2
      | none => ops
    else ops

/-- The device begin retry loop of KeyStoreService begin: while the device
returned TOO_MANY_OPERATIONS and a pruneable operation exists, prune and call
device begin again.  dev gives the ErrorCode of each successive device begin
call; k is the index of the next call; rc is the result of the last call. -/
def devLoop : Nat → (Nat → Int) → Nat → Int → List Bool → Int × List Bool
  | 0, _, _, rc, ops => (rc, ops)
  | fuel + 1, dev, k, rc, ops =>
    if rc = errTooManyOperations ∧ hasPruneable ops = true then
      match pruneOp ops with
      | some ops2 => devLoop fuel dev (k + 1) (dev k) ops2
      | none => (rc, ops)
    else (rc, ops)

/-- Environment of one begin call: the answers of the external collaborators.
granted is the is_granted_to check; callerIsSystem is get_app_id(callingUid)
= AID_SYSTEM; params are the caller-supplied tags; loadRc is the
getKeyForName response for the KeymasterBound blob and blobSuper its
SuperEncrypted flag; charRc and charRc2 are the raw ErrorCodes of the two
getOperationCharacteristics calls and upgradeRc the upgradeKeyBlob return
code; authRc is the getAuthToken return code; entropyRc the addRngEntropy
return code when entropy was supplied; keyIdOk the CreateKeyId outcome;
authorizeRc the raw ErrorCode of AuthorizeOperation; devBegin the ErrorCode
of each successive device begin call. -/
structure BeginEnv where
  granted : Bool
  callerIsSystem : Bool
  pruneable : Bool
  params : List Nat
  loadRc : Int
  blobSuper : Bool
  charRc : Int
  upgradeRc : Int
  charRc2 : Int
  authRc : Int
  hasEntropy : Bool
  entropyRc : Int
  keyIdOk : Bool
  authorizeRc : Int
  devBegin : Nat → Int

/-- Result code of loading the KeymasterBound blob in begin, after the
remapping of Locked on a SuperEncrypted blob to KEY_USER_NOT_AUTHENTICATED. -/
def beginLoadRc (env : BeginEnv) : Int :=
  if env.loadRc = responseLocked ∧ env.blobSuper = true then errKeyUserNotAuthenticated
  else env.loadRc

/-- Return code of the first getOperationCharacteristics call in begin, as a
KeyStoreServiceReturnCode. -/
def beginCharRc1 (env : BeginEnv) : Int := ksrc env.charRc

/-- Return code of obtaining the operation characteristics in begin after the
KEY_REQUIRES_UPGRADE retry. -/
def beginCharRcFinal (env : BeginEnv) : Int :=
  if beginCharRc1 env = errKeyRequiresUpgrade then ksrc env.charRc2 else beginCharRc1 env

/-- The tail of KeyStoreService begin once all policy checks passed: the
pre-begin prune loop, the first device begin call, the TOO_MANY_OPERATIONS
retry loop, and on device success the registration of the new operation at
the young end of the map.  Result: final return code, operation map, and
whether the keymaster device was called. -/
def beginDevPhase (dev : Nat → Int) (pruneable : Bool) (authRc : Int) (ops : List Bool) :
    Int × List Bool × Bool :=
  if (devLoop (prePrune ops.length ops).length dev 1 (dev 0) (prePrune ops.length ops)).1
      ≠ errOk then
    (ksrc (devLoop (prePrune ops.length ops).length dev 1 (dev 0) (prePrune ops.length ops)).1,
     (devLoop (prePrune ops.length ops).length dev 1 (dev 0) (prePrune ops.length ops)).2,
     true)
  else
    (authRc,
     (devLoop (prePrune ops.length ops).length dev 1 (dev 0) (prePrune ops.length ops)).2
       ++ [pruneable],
     true)

/-- KeyStoreService begin: grant check, non-pruneable privilege check,
restricted parameter check, blob load with the Locked remapping,
characteristics with upgrade retry, auth token lookup (OP_AUTH_NEEDED is
tolerated), entropy push, key id creation, enforcement authorization, then
the device phase.  Result: final return code, operation map, and whether the
keymaster device was called on this path. -/
def beginModel (env : BeginEnv) (ops : List Bool) : Int × List Bool × Bool :=
  if env.granted = false then (responsePermissionDenied, ops, false)
  else if env.pruneable = false ∧ env.callerIsSystem = false then
    (responsePermissionDenied, ops, false)
  else if checkAllowedOperationParams env.params = false then
    (errInvalidArgument, ops, false)
  else if beginLoadRc env ≠ responseNoError then (beginLoadRc env, ops, false)
  else if beginCharRc1 env = errKeyRequiresUpgrade ∧ env.upgradeRc ≠ responseNoError then
    (env.upgradeRc, ops, true)
  else if beginCharRcFinal env ≠ responseNoError then (beginCharRcFinal env, ops, true)
  else if env.authRc ≠ responseNoError ∧ env.authRc ≠ responseOpAuthNeeded then
    (env.authRc, ops, true)
  else if env.hasEntropy = true ∧ env.entropyRc ≠ responseNoError then
    (env.entropyRc, ops, true)
  else if env.keyIdOk = false then (errUnknownError, ops, true)
  else if ksrc env.authorizeRc ≠ responseNoError then (ksrc env.authorizeRc, ops, true)
  else beginDevPhase env.devBegin env.pruneable env.authRc ops

/-- KeyStoreService update: restricted parameter check, operation lookup,
lazy auth token resolution, enforcement authorization, device update.  The
operation map here is the list of live operation tokens; update never removes
an operation.  Result: return code, operation map, whether the keymaster
device was called. -/
def updateModel (params : List Nat) (token : Nat) (authRc : Int) (authorizeRc : Int)
    (devRc : Int) (ops : List Nat) : Int × List Nat × Bool :=
  if checkAllowedOperationParams params = false then (errInvalidArgument, ops, false)
  else if token ∉ ops then (errInvalidOperationHandle, ops, false)
  else if authRc ≠ responseNoError then (authRc, ops, false)
  else if ksrc authorizeRc ≠ responseNoError then (ksrc authorizeRc, ops, false)
  else (ksrc devRc, ops, true)

/-- KeyStoreService finish: restricted parameter check, operation lookup,
lazy auth token resolution, entropy push, enforcement authorization, device
finish; after the device call the operation is removed from the map
regardless of the device result. -/
def finishModel (params : List Nat) (token : Nat) (authRc : Int) (hasEntropy : Bool)
    (entropyRc : Int) (authorizeRc : Int) (devRc : Int) (ops : List Nat) :
    Int × List Nat × Bool :=
  if checkAllowedOperationParams params = false then (errInvalidArgument, ops, false)
  else if token ∉ ops then (errInvalidOperationHandle, ops, false)
  else if authRc ≠ responseNoError then (authRc, ops, false)
  else if hasEntropy = true ∧ entropyRc ≠ responseNoError then (entropyRc, ops, true)
  else if ksrc authorizeRc ≠ responseNoError then (ksrc authorizeRc, ops, true)
  else (ksrc devRc, ops.erase token, true)

/-- A persisted blob: payload bytes, info prefix length, and the four boolean
flags Encrypted, SuperEncrypted, Fallback, CriticalToDeviceEncryption. -/
structure Blob where
  value : List Nat
  infoLength : Nat
  encrypted : Bool
  superEncrypted : Bool
  fallback : Bool
  critical : Bool
deriving DecidableEq

/-- KeyStoreService upgradeKeyBlob: re-read the blob by name and uid (stored
models the KeymasterBound blob file, none when absent), call device
upgradeKey; on device success delete the old file, persist a new blob built
from the upgraded key material with the four boolean flags copied from the
old blob and a fresh empty info prefix, and re-read it for the caller.
Result: return code, the stored blob after the call, and the blob handed
back through the out parameter. -/
def upgradeKeyBlob (stored : Option Blob) (devUpgrade : Except Int (List Nat)) :
    Int × Option Blob × Option Blob :=
  match stored with
  | none => (responseKeyNotFound, none, none)
  | some old =>
    match devUpgrade with
    | .error e => (ksrc e, some old, some old)
    | .ok mat =>
      (responseNoError,
       some ⟨mat, 0, old.encrypted, old.superEncrypted, old.fallback, old.critical⟩,
       some ⟨mat, 0, old.encrypted, old.superEncrypted, old.fallback, old.critical⟩)

/-- One key entry under the target uid during clear_uid: whether its
KeymasterBound blob is readable by the sweep (the get call succeeds) and
whether the blob carries CriticalToDeviceEncryption. -/
structure KEntry where
  critical : Bool
  getOk : Bool
deriving DecidableEq

/-- KeyStoreService clear_uid: checkBinderPermissionSelfOrSystem (permission
held, and the target uid is the caller or the caller is AID_SYSTEM), then the
alias sweep: every entry has its KeymasterBound and KeyCharacteristics blobs
deleted except that, when the target uid has app id AID_SYSTEM, entries whose
blob is readable and CriticalToDeviceEncryption survive; the sweep ends with
NoError. -/
def clear_uid (hasPerm : Bool) (callingUid targetUid : Nat) (listOk : Bool)
    (entries : List KEntry) : Int × List KEntry :=
  if hasPerm = true ∧ (targetUid = callingUid ∨ callingUid = AID_SYSTEM) then
    if listOk = false then (responseSystemError, entries)
    else (responseNoError,
          entries.filter (fun e =>
            decide (get_app_id targetUid = AID_SYSTEM) && e.getOk && e.critical))
  else (responsePermissionDenied, entries)

/-- translateResultToLegacyResult from key_store_service.cpp: positive values
(ResponseCode) are preserved; everything else becomes SYSTEM_ERROR. -/
def translateResultToLegacyResult (result : Int) : Int :=
  if 0 < result then result else responseSystemError

/-- The result plumbing of the legacy import_key entry point: SYSTEM_ERROR
when PKCS8 decoding, key conversion or the key type fails, and otherwise
NO_ERROR regardless of the result that importKey reported through
import_result (key_store_service.cpp lines 528 to 537). -/
def import_key_model (pkcs8Ok : Bool) (pkeyOk : Bool) (typeSupported : Bool)
    (importResult : Int) : Int :=
  if pkcs8Ok = false then responseSystemError
  else if pkeyOk = false then responseSystemError
  else if typeSupported = false then responseSystemError
  else responseNoError

/-- EVP_PKEY_RSA (OpenSSL key type id). -/
def EVP_PKEY_RSA : Int := 6

/-- EVP_PKEY_EC (OpenSSL key type id). -/
def EVP_PKEY_EC : Int := 408

/-- Modelled from the spec: RSA key size default (defaults.h is not under
src/; the spec fixes RSA sizes 512 to 4096, default 2048). -/
def RSA_DEFAULT_KEY_SIZE : Int := 2048

/-- Modelled from the spec: RSA minimum key size. -/
def RSA_MIN_KEY_SIZE : Int := 512

/-- Modelled from the spec: RSA maximum key size. -/
def RSA_MAX_KEY_SIZE : Int := 4096

/-- Modelled from the spec: default RSA public exponent 65537. -/
def RSA_DEFAULT_EXPONENT : Nat := 65537

/-- Modelled from the spec: EC key size default (defaults.h is not under
src/; the spec fixes EC sizes 224 to 521, default 256). -/
def EC_DEFAULT_KEY_SIZE : Int := 256

/-- Modelled from the spec: EC minimum key size. -/
def EC_MIN_KEY_SIZE : Int := 224

/-- Modelled from the spec: EC maximum key size. -/
def EC_MAX_KEY_SIZE : Int := 521

/-- BN_MASK2 for a 32-bit BN_ULONG: the sentinel 0xFFFFFFFF that BN_get_word
returns when the value does not fit in a machine word, and the literal the
source compares the exponent against. -/
def BN_MASK2 : Nat := 4294967295

/-- BN_bin2bn: value of a big-endian byte string. -/
def bnBin2bn (bytes : List Nat) : Nat := bytes.foldl (fun a b => a * 256 + b) 0

/-- BN_get_word with a 32-bit BN_ULONG: the value when it fits in a machine
word, BN_MASK2 otherwise. -/
def bnGetWord (v : Nat) : Nat := if v ≤ BN_MASK2 then v else BN_MASK2

/-- Outcome of the key type validation of the legacy generate entry point:
rejection with a response code, or acceptance carrying the effective key size
(and for RSA the public exponent word). -/
inductive GenResult where
  | err (rc : Int)
  | okEC (size : Int)
  | okRSA (size : Int) (exp : Nat)
deriving DecidableEq

/-- Key type validation of KeyStoreService generate: EC defaults a size of -1
to EC_DEFAULT_KEY_SIZE and rejects sizes outside the EC range; RSA defaults
a size of -1 to RSA_DEFAULT_KEY_SIZE, rejects sizes outside the RSA range,
accepts at most one optional public exponent argument given as a big-endian
byte string and rejects it when BN_get_word yields the overflow sentinel; any
other key type is rejected.  Rejections use SYSTEM_ERROR. -/
def generateParams (keyType keySize : Int) (args : List (Option (List Nat))) : GenResult :=
  if keyType = EVP_PKEY_EC then
    if keySize = -1 then .okEC EC_DEFAULT_KEY_SIZE
    else if keySize < EC_MIN_KEY_SIZE ∨ EC_MAX_KEY_SIZE < keySize then
      .err responseSystemError
    else .okEC keySize
  else if keyType = EVP_PKEY_RSA then
    if keySize ≠ -1 ∧ (keySize < RSA_MIN_KEY_SIZE ∨ RSA_MAX_KEY_SIZE < keySize) then
      .err responseSystemError
    else
      match args with
      | [] => .okRSA (if keySize = -1 then RSA_DEFAULT_KEY_SIZE else keySize)
                     RSA_DEFAULT_EXPONENT
      | [none] => .err responseSystemError
      | [some bytes] =>
        if bnGetWord (bnBin2bn bytes) = BN_MASK2 then .err responseSystemError
        else .okRSA (if keySize = -1 then RSA_DEFAULT_KEY_SIZE else keySize)
                    (bnGetWord (bnBin2bn bytes))
      | _ => .err responseSystemError
  else .err responseSystemError

/-- The legacy generate entry point as seen at the result level: the key type
validation, and on success the value that the generateKey core call reported
is handed to the caller verbatim (key_store_service.cpp lines 486 to 494). -/
def generate_legacy (keyType keySize : Int) (args : List (Option (List Nat)))
    (generateKeyRc : Int) : Int :=
  match generateParams keyType keySize args with
  | .err rc => rc
  | _ => generateKeyRc

/-- Modelled from the spec together with the external header
hardware/hw_auth_token.h: the packed hw_auth_token_t has one version byte,
three 64-bit ids, one 32-bit type, one 64-bit timestamp and a 32 byte HMAC,
69 bytes in total. -/
def hwAuthTokenSize : Nat := 69

/-- KeyStoreService addAuthToken: permission check, exact length check
against the packed hw_auth_token_t, version byte check (the version is the
first byte of the packed layout), then insertion into the AuthTokenTable
(modelled as appending to the table list). -/
def addAuthToken (hasPerm : Bool) (bytes : List Nat) (table : List (List Nat)) :
    Int × List (List Nat) :=
  if hasPerm = false then (responsePermissionDenied, table)
  else if bytes.length ≠ hwAuthTokenSize then (errInvalidArgument, table)
  else if bytes.headD 0 ≠ 0 then (errInvalidArgument, table)
  else (responseNoError, table ++ [bytes])

end Keystore

namespace Keystore

/-- Removing the oldest pruneable operation shrinks the map by one. -/
theorem pruneOp_length : ∀ (ops ops2 : List Bool), pruneOp ops = some ops2 →
    ops2.length + 1 = ops.length := by
  intro ops
  induction ops with
  | nil => intro ops2 h; simp [pruneOp] at h
  | cons b rest ih =>
    intro ops2 h
    by_cases hb : b = true
    · simp [pruneOp, hb] at h
      subst h
      simp
    · simp [pruneOp, hb] at h
      obtain ⟨a, ha, rfl⟩ := h
      have := ih a ha
      simp
      omega

/-- When every operation is pruneable, the pre-begin prune loop brings the
count strictly below the bound. -/
theorem prePrune_bound : ∀ (fuel : Nat) (ops : List Bool),
    (∀ b ∈ ops, b = true) → ops.length ≤ fuel →
    (prePrune fuel ops).length < maxOperations := by
  intro fuel
  induction fuel with
  | zero =>
    intro ops _ hl
    have h0 : ops.length = 0 := Nat.le_zero.mp hl
    simp [prePrune, h0, maxOperations]
  | succ n ih =>
    intro ops hall hl
    by_cases hge : maxOperations ≤ ops.length
    · cases ops with
      | nil => simp [maxOperations] at hge
      | cons b rest =>
        have hb : b = true := hall b (by simp)
        subst hb
        have hp : pruneOp (true :: rest) = some rest := by simp [pruneOp]
        simp only [prePrune, if_pos hge, hp]
        exact ih rest (fun x hx => hall x (by simp [hx])) (by simp at hl ⊢; omega)
    · simp only [prePrune, if_neg hge]
      simp only [maxOperations] at hge ⊢
      omega

/-- The device begin retry loop never grows the operation map. -/
theorem devLoop_length_le : ∀ (fuel : Nat) (dev : Nat → Int) (k : Nat) (rc : Int)
    (ops : List Bool), (devLoop fuel dev k rc ops).2.length ≤ ops.length := by
  intro fuel
  induction fuel with
  | zero => intro dev k rc ops; simp [devLoop]
  | succ n ih =>
    intro dev k rc ops
    by_cases hc : rc = errTooManyOperations ∧ hasPruneable ops = true
    · cases hp : pruneOp ops with
      | none => simp [devLoop, hc, hp]
      | some ops2 =>
        have hlen := pruneOp_length ops ops2 hp
        have hrec := ih dev (k + 1) (dev k) ops2
        simp only [devLoop, if_pos hc, hp]
        omega
    · simp [devLoop, hc]

/-- When every operation is pruneable, the device phase of begin respects the
operation bound. -/
theorem beginDevPhase_bound (dev : Nat → Int) (pruneable : Bool) (authRc : Int)
    (ops : List Bool) (hall : ∀ b ∈ ops, b = true) :
    (beginDevPhase dev pruneable authRc ops).2.1.length ≤ maxOperations := by
  have h1 : (prePrune ops.length ops).length < maxOperations :=
    prePrune_bound ops.length ops hall le_rfl
  have h2 := devLoop_length_le (prePrune ops.length ops).length dev 1 (dev 0)
    (prePrune ops.length ops)
  unfold beginDevPhase
  split_ifs with h
  · exact le_trans h2 (Nat.le_of_lt h1)
  · show ((devLoop (prePrune ops.length ops).length dev 1 (dev 0)
        (prePrune ops.length ops)).2 ++ [pruneable]).length ≤ maxOperations
    rw [List.length_append]
    simp only [List.length_singleton]
    omega

/-- A parameter list carrying a restricted tag fails the allowed check. -/
theorem checkAllowed_false_of_restricted (p : List Nat)
    (h : tagAuthToken ∈ p ∨ tagAttestationApplicationId ∈ p ∨ tagResetSinceIdRotation ∈ p) :
    checkAllowedOperationParams p = false := by
  simp only [checkAllowedOperationParams, decide_eq_false_iff_not]
  tauto

set_option maxHeartbeats 1600000 in
/-- C1 (amended): begin preserves the bound of at most MAX_OPERATIONS active
operations whenever every active operation is pruneable; the pre-begin loop
prunes while the count is at least the bound, and the retry loop prunes while
the device reports TooManyOperations and a pruneable operation exists.  When
non-pruneable operations fill the map, pruning fails, device begin proceeds,
and the bound can be exceeded (see the counterexample). -/
theorem begin_bounded_when_all_pruneable (env : BeginEnv) (ops : List Bool)
    (hall : ∀ b ∈ ops, b = true) (hlen : ops.length ≤ maxOperations) :
    (beginModel env ops).2.1.length ≤ maxOperations := by
  unfold beginModel
  split_ifs
  · exact hlen
  · exact hlen
  · exact hlen
  · exact hlen
  · exact hlen
  · exact hlen
  · exact hlen
  · exact hlen
  · exact hlen
  · exact hlen
  · exact beginDevPhase_bound env.devBegin env.pruneable env.authRc ops hall

/-- Witness for the amended C1 theorem at a concrete all-pruneable map. -/
theorem begin_bounded_when_all_pruneable_witness :
    (beginModel ⟨true, true, true, [], 1, false, 0, 1, 0, 1, false, 1, true, 0, fun _ => 0⟩
        [true]).2.1.length ≤ maxOperations :=
  begin_bounded_when_all_pruneable _ [true] (by decide) (by decide)

/-- C1 counterexample: with fifteen non-pruneable operations active, pruning
fails, the device accepts the begin call, and the map grows to sixteen
operations, exceeding MAX_OPERATIONS. -/
theorem begin_bound_counterexample :
    (beginModel ⟨true, true, false, [], 1, false, 0, 1, 0, 1, false, 1, true, 0, fun _ => 0⟩
        (List.replicate 15 false)).2.1.length = 16
    ∧ ¬(16 ≤ maxOperations) := by
  exact ⟨by decide, by decide⟩

/-- C2: for keys created by generateKey or importKey, the persisted
KeymasterBound blob has SuperEncrypted equal to AuthenticationBound and not
CriticalToDeviceEncryption, where AuthenticationBound is absence of the
NO_AUTH_REQUIRED tag and CriticalToDeviceEncryption is the caller flag. -/
theorem created_blob_superencrypted_flag (params : List Nat) (flags : Nat) (fb : Bool) :
    (generateKeyBlobFlags params flags fb).superEncrypted
        = (isAuthenticationBound params
            && !flagSet flags KEYSTORE_FLAG_CRITICAL_TO_DEVICE_ENCRYPTION)
    ∧ (importKeyBlobFlags params flags fb).superEncrypted
        = (isAuthenticationBound params
            && !flagSet flags KEYSTORE_FLAG_CRITICAL_TO_DEVICE_ENCRYPTION) := by
  constructor <;>
  · cases hA : isAuthenticationBound params <;>
    cases hC : flagSet flags KEYSTORE_FLAG_CRITICAL_TO_DEVICE_ENCRYPTION <;>
    simp [generateKeyBlobFlags, importKeyBlobFlags, hA, hC]

/-- C3: when loading the KeymasterBound blob in begin reports Locked and the
blob is SuperEncrypted, the caller receives KEY_USER_NOT_AUTHENTICATED. -/
theorem begin_locked_superencrypted_not_authenticated (env : BeginEnv) (ops : List Bool)
    (hg : env.granted = true)
    (hp : env.pruneable = true ∨ env.callerIsSystem = true)
    (hargs : checkAllowedOperationParams env.params = true)
    (hload : env.loadRc = responseLocked)
    (hsuper : env.blobSuper = true) :
    (beginModel env ops).1 = errKeyUserNotAuthenticated := by
  have hL : beginLoadRc env = errKeyUserNotAuthenticated := by
    simp [beginLoadRc, hload, hsuper]
  have h2 : ¬(env.pruneable = false ∧ env.callerIsSystem = false) := by
    rcases hp with h | h <;> simp [h]
  simp [beginModel, hg, h2, hargs, hL, errKeyUserNotAuthenticated, responseNoError]

/-- Witness for the C3 theorem at a concrete environment. -/
theorem begin_locked_superencrypted_not_authenticated_witness :
    (beginModel ⟨true, true, true, [], responseLocked, true, 0, 1, 0, 1, false, 1, true, 0,
        fun _ => 0⟩ []).1 = errKeyUserNotAuthenticated :=
  begin_locked_superencrypted_not_authenticated _ [] rfl (Or.inl rfl) (by decide) rfl rfl

/-- C4 (amended): a parameter list carrying AUTH_TOKEN,
ATTESTATION_APPLICATION_ID or RESET_SINCE_ID_ROTATION makes update and
finish return INVALID_ARGUMENT with no state change and no device call
unconditionally, and makes begin do the same once its grant and
non-pruneable privilege checks pass (those checks run first, so a call that
fails them returns PermissionDenied instead; see the counterexample). -/
theorem restricted_tags_rejected_no_state_change (p : List Nat)
    (h : tagAuthToken ∈ p ∨ tagAttestationApplicationId ∈ p ∨ tagResetSinceIdRotation ∈ p) :
    (∀ (env : BeginEnv) (ops : List Bool), env.params = p → env.granted = true →
        (env.pruneable = true ∨ env.callerIsSystem = true) →
        beginModel env ops = (errInvalidArgument, ops, false))
    ∧ (∀ (token : Nat) (authRc authorizeRc devRc : Int) (ops : List Nat),
        updateModel p token authRc authorizeRc devRc ops = (errInvalidArgument, ops, false))
    ∧ (∀ (token : Nat) (authRc : Int) (hasEntropy : Bool)
        (entropyRc authorizeRc devRc : Int) (ops : List Nat),
        finishModel p token authRc hasEntropy entropyRc authorizeRc devRc ops
          = (errInvalidArgument, ops, false)) := by
  have hc := checkAllowed_false_of_restricted p h
  refine ⟨?_, ?_, ?_⟩
  · intro env ops hparams hg hp
    have h2 : ¬(env.pruneable = false ∧ env.callerIsSystem = false) := by
      rcases hp with h | h <;> simp [h]
    simp [beginModel, hg, h2, hparams, hc]
  · intro token authRc authorizeRc devRc ops
    simp [updateModel, hc]
  · intro token authRc hasEntropy entropyRc authorizeRc devRc ops
    simp [finishModel, hc]

/-- Witness for the amended C4 theorem: update with an AUTH_TOKEN parameter. -/
theorem restricted_tags_rejected_no_state_change_witness :
    updateModel [tagAuthToken] 0 1 0 0 [] = (errInvalidArgument, [], false) :=
  (restricted_tags_rejected_no_state_change [tagAuthToken] (by decide)).2.1 0 1 0 0 []

/-- C4 counterexample: a begin call whose parameters carry AUTH_TOKEN but
whose caller fails the grant check returns PermissionDenied, not
InvalidArgument, because the permission checks precede the parameter check. -/
theorem restricted_tag_begin_counterexample :
    (beginModel ⟨false, false, true, [tagAuthToken], 1, false, 0, 1, 0, 1, false, 1, true, 0,
        fun _ => 0⟩ []).1 = responsePermissionDenied
    ∧ responsePermissionDenied ≠ errInvalidArgument := by
  exact ⟨by decide, by decide⟩

/-- C5 (amended): once finish reaches the device call (parameter check,
operation lookup, auth token resolution, entropy push and authorization all
passed), the operation is removed from the map regardless of the device
result; update never removes the operation, and neither do the pre-device
failure paths of finish. -/
theorem finish_removes_operation_update_never_removes :
    (∀ (p : List Nat) (token : Nat) (authRc : Int) (hasEntropy : Bool)
        (entropyRc authorizeRc devRc : Int) (ops : List Nat),
        checkAllowedOperationParams p = true → token ∈ ops →
        authRc = responseNoError → (hasEntropy = true → entropyRc = responseNoError) →
        ksrc authorizeRc = responseNoError →
        (finishModel p token authRc hasEntropy entropyRc authorizeRc devRc ops).2.1
          = ops.erase token)
    ∧ (∀ (p : List Nat) (token : Nat) (authRc authorizeRc devRc : Int) (ops : List Nat),
        (updateModel p token authRc authorizeRc devRc ops).2.1 = ops) := by
  constructor
  · intro p token a hasEntropy e az d ops hc hmem ha hent haz
    have h4 : ¬(hasEntropy = true ∧ e ≠ responseNoError) := by
      rintro ⟨h1, h2⟩; exact h2 (hent h1)
    simp [finishModel, hc, hmem, ha, h4, haz]
  · intro p token a az d ops
    unfold updateModel
    split_ifs <;> rfl

/-- Witness for the amended C5 theorem: a finish whose device call fails with
UNKNOWN_ERROR still removes the operation. -/
theorem finish_removes_operation_update_never_removes_witness :
    (finishModel [] 5 responseNoError false 0 0 errUnknownError [5]).2.1 = List.erase [5] 5 :=
  (finish_removes_operation_update_never_removes).1 [] 5 responseNoError false 0 0
    errUnknownError [5] (by decide) (by decide) rfl (fun h => absurd h (by decide)) (by decide)

/-- C5 counterexample: an update on an existing operation token whose device
call fails returns the failure to the caller but leaves the operation in the
map, contradicting the claim that caller-visible failures during update
remove the operation. -/
theorem update_failure_keeps_operation_counterexample :
    (updateModel [] 7 responseNoError 0 errUnknownError [7]).1 = errUnknownError
    ∧ errUnknownError ≠ responseNoError
    ∧ (updateModel [] 7 responseNoError 0 errUnknownError [7]).2.1 = [7] := by
  exact ⟨by decide, by decide, by decide⟩

/-- C6 (amended): translateResultToLegacyResult collapses every
keymaster-native error (negative code) to SystemError and preserves every
ResponseCode value verbatim, and sign and verify route their failures through
it; but import_key returns NoError regardless of the import result, and
generate hands the generateKey result to the caller verbatim. -/
theorem legacy_translate_behavior :
    (∀ r : Int, r < 0 → translateResultToLegacyResult r = responseSystemError)
    ∧ (∀ r : Int, r ∈ responseCodeValues → translateResultToLegacyResult r = r)
    ∧ (∀ g : Int, import_key_model true true true g = responseNoError)
    ∧ (∀ g : Int, generate_legacy EVP_PKEY_EC (-1) [] g = g) := by
  refine ⟨?_, ?_, ?_, ?_⟩
  · intro r hr
    have hnot : ¬(0 < r) := by omega
    simp [translateResultToLegacyResult, hnot]
  · intro r hr
    fin_cases hr <;> decide
  · intro g; rfl
  · intro g; rfl

/-- Witness for the amended C6 theorem. -/
theorem legacy_translate_behavior_witness :
    translateResultToLegacyResult errKeyUserNotAuthenticated = responseSystemError
    ∧ translateResultToLegacyResult responseKeyNotFound = responseKeyNotFound :=
  ⟨legacy_translate_behavior.1 errKeyUserNotAuthenticated (by decide),
   legacy_translate_behavior.2.1 responseKeyNotFound (by decide)⟩

/-- C6 counterexample: the legacy generate entry point returns the keymaster
error INVALID_ARGUMENT verbatim instead of collapsing it into SystemError,
and import_key turns a keymaster UNKNOWN_ERROR into NoError. -/
theorem legacy_passthrough_counterexample :
    generate_legacy EVP_PKEY_EC (-1) [] errInvalidArgument = errInvalidArgument
    ∧ import_key_model true true true errUnknownError = responseNoError
    ∧ errInvalidArgument ≠ responseSystemError
    ∧ responseNoError ≠ responseSystemError := by
  exact ⟨by decide, by decide, by decide, by decide⟩

/-- C7 (amended): when device upgradeKey succeeds, the old blob is replaced
by a new persisted blob holding the upgraded key material with the four
boolean flags Encrypted, SuperEncrypted, Fallback and
CriticalToDeviceEncryption copied from the old blob and the info prefix
length reset to zero, and the new blob is re-read and handed to the caller. -/
theorem upgrade_preserves_bool_flags_resets_info (old : Blob) (mat : List Nat) :
    upgradeKeyBlob (some old) (Except.ok mat)
      = (responseNoError,
         some ⟨mat, 0, old.encrypted, old.superEncrypted, old.fallback, old.critical⟩,
         some ⟨mat, 0, old.encrypted, old.superEncrypted, old.fallback, old.critical⟩) := rfl

/-- C7 counterexample: an old blob with info prefix length three is upgraded
into a stored blob with info prefix length zero, so the info prefix length,
the fifth flag of the data model, is not preserved. -/
theorem upgrade_info_length_counterexample :
    (upgradeKeyBlob (some ⟨[1], 3, true, true, true, true⟩) (Except.ok [9])).2.1
      = some ⟨[9], 0, true, true, true, true⟩
    ∧ Blob.infoLength ⟨[9], 0, true, true, true, true⟩
        ≠ Blob.infoLength ⟨[1], 3, true, true, true, true⟩ := by
  exact ⟨rfl, by decide⟩

/-- C8 (amended): a permitted clear_uid sweep deletes both blobs of every
alias under the target uid and returns NoError, except that entries whose
blob is readable and CriticalToDeviceEncryption survive when the TARGET uid
(not the caller) has app id SYSTEM; when the target app id is not SYSTEM,
every entry is deleted. -/
theorem clear_uid_retention_by_target_app_id (hasPerm : Bool) (callingUid targetUid : Nat)
    (entries : List KEntry) (hperm : hasPerm = true)
    (hok : targetUid = callingUid ∨ callingUid = AID_SYSTEM) :
    (get_app_id targetUid = AID_SYSTEM →
        clear_uid hasPerm callingUid targetUid true entries
          = (responseNoError, entries.filter (fun e => e.getOk && e.critical)))
    ∧ (get_app_id targetUid ≠ AID_SYSTEM →
        clear_uid hasPerm callingUid targetUid true entries = (responseNoError, [])) := by
  have hcond : hasPerm = true ∧ (targetUid = callingUid ∨ callingUid = AID_SYSTEM) :=
    ⟨hperm, hok⟩
  constructor
  · intro happ
    simp only [clear_uid, if_pos hcond]
    simp [happ]
  · intro happ
    simp only [clear_uid, if_pos hcond]
    simp [happ]

/-- Witness for the amended C8 theorem at a concrete system target uid. -/
theorem clear_uid_retention_by_target_app_id_witness :
    clear_uid true 1000 1000 true [(⟨true, true⟩ : KEntry)]
      = (responseNoError, List.filter (fun e => e.getOk && e.critical)
          [(⟨true, true⟩ : KEntry)]) :=
  (clear_uid_retention_by_target_app_id true 1000 1000 [(⟨true, true⟩ : KEntry)] rfl
    (Or.inl rfl)).1 (by decide)

/-- C8 counterexample: the caller uid 1000 is AID_SYSTEM and the single entry
under target uid 10044 is readable and CriticalToDeviceEncryption, yet the
sweep deletes it, because the code keys retention on the app id of the
TARGET uid, not on the caller. -/
theorem clear_uid_caller_system_counterexample :
    clear_uid true 1000 10044 true [(⟨true, true⟩ : KEntry)] = (responseNoError, [])
    ∧ (1000 : Nat) = AID_SYSTEM := by
  exact ⟨by decide, by decide⟩

/-- C9: the legacy generate validation: RSA defaults a size of -1 to 2048 and
rejects sizes outside 512 to 4096; EC defaults a size of -1 to 256 and
rejects sizes outside 224 to 521; any other key type is rejected; and an RSA
public exponent byte string whose value does not fit in a machine word is
rejected. -/
theorem generate_validation :
    (generateParams EVP_PKEY_RSA (-1) [] = GenResult.okRSA RSA_DEFAULT_KEY_SIZE
        RSA_DEFAULT_EXPONENT)
    ∧ (∀ (s : Int) (args : List (Option (List Nat))), s ≠ -1 →
        (s < RSA_MIN_KEY_SIZE ∨ RSA_MAX_KEY_SIZE < s) →
        generateParams EVP_PKEY_RSA s args = GenResult.err responseSystemError)
    ∧ (∀ args : List (Option (List Nat)),
        generateParams EVP_PKEY_EC (-1) args = GenResult.okEC EC_DEFAULT_KEY_SIZE)
    ∧ (∀ (s : Int) (args : List (Option (List Nat))), s ≠ -1 →
        (s < EC_MIN_KEY_SIZE ∨ EC_MAX_KEY_SIZE < s) →
        generateParams EVP_PKEY_EC s args = GenResult.err responseSystemError)
    ∧ (∀ (t s : Int) (args : List (Option (List Nat))), t ≠ EVP_PKEY_RSA → t ≠ EVP_PKEY_EC →
        generateParams t s args = GenResult.err responseSystemError)
    ∧ (∀ (s : Int) (bytes : List Nat),
        (s = -1 ∨ (RSA_MIN_KEY_SIZE ≤ s ∧ s ≤ RSA_MAX_KEY_SIZE)) →
        BN_MASK2 < bnBin2bn bytes →
        generateParams EVP_PKEY_RSA s [some bytes] = GenResult.err responseSystemError) := by
  refine ⟨by decide, ?_, ?_, ?_, ?_, ?_⟩
  · intro s args h1 h2
    unfold generateParams
    rw [if_neg (by decide : ¬(EVP_PKEY_RSA = EVP_PKEY_EC))]
    rw [if_pos rfl]
    rw [if_pos ⟨h1, h2⟩]
  · intro args
    unfold generateParams
    rw [if_pos rfl, if_pos rfl]
  · intro s args h1 h2
    unfold generateParams
    rw [if_pos rfl, if_neg h1, if_pos h2]
  · intro t s args h1 h2
    unfold generateParams
    rw [if_neg h2, if_neg h1]
  · intro s bytes hs hv
    have hcond : ¬(s ≠ -1 ∧ (s < RSA_MIN_KEY_SIZE ∨ RSA_MAX_KEY_SIZE < s)) := by
      rcases hs with rfl | ⟨hlo, hhi⟩
      · simp
      · rintro ⟨-, h | h⟩ <;> omega
    have hw : bnGetWord (bnBin2bn bytes) = BN_MASK2 := by
      unfold bnGetWord
      rw [if_neg (by omega)]
    unfold generateParams
    rw [if_neg (by decide : ¬(EVP_PKEY_RSA = EVP_PKEY_EC))]
    rw [if_pos rfl]
    rw [if_neg hcond]
    simp [hw]

/-- Witness for the C9 theorem instantiating each rejection clause. -/
theorem generate_validation_witness :
    generateParams EVP_PKEY_RSA 100 [] = GenResult.err responseSystemError
    ∧ generateParams EVP_PKEY_EC 1000 [] = GenResult.err responseSystemError
    ∧ generateParams 0 0 [] = GenResult.err responseSystemError
    ∧ generateParams EVP_PKEY_RSA (-1) [some [1, 0, 0, 0, 0]]
        = GenResult.err responseSystemError :=
  ⟨generate_validation.2.1 100 [] (by decide) (by decide),
   generate_validation.2.2.2.1 1000 [] (by decide) (by decide),
   generate_validation.2.2.2.2.1 0 0 [] (by decide) (by decide),
   generate_validation.2.2.2.2.2 (-1) [1, 0, 0, 0, 0] (Or.inl rfl) (by decide)⟩

/-- C10 (amended): when the caller holds the AddAuth permission, addAuthToken
inserts the token and returns NoError exactly when the byte vector has the
length of the packed hardware auth token structure and its version byte is
zero; any other length, or a nonzero version, yields INVALID_ARGUMENT with
the table unchanged.  Without the permission the call returns
PermissionDenied instead (see the counterexample). -/
theorem addAuthToken_validation (hasPerm : Bool) (bytes : List Nat)
    (table : List (List Nat)) (hperm : hasPerm = true) :
    (bytes.length = hwAuthTokenSize → bytes.headD 0 = 0 →
        addAuthToken hasPerm bytes table = (responseNoError, table ++ [bytes]))
    ∧ (bytes.length ≠ hwAuthTokenSize →
        addAuthToken hasPerm bytes table = (errInvalidArgument, table))
    ∧ (bytes.headD 0 ≠ 0 →
        addAuthToken hasPerm bytes table = (errInvalidArgument, table)) := by
  subst hperm
  refine ⟨?_, ?_, ?_⟩
  · intro h1 h2
    unfold addAuthToken
    rw [if_neg (by simp), if_neg (not_not_intro h1), if_neg (not_not_intro h2)]
  · intro h1
    unfold addAuthToken
    rw [if_neg (by simp), if_pos h1]
  · intro h1
    unfold addAuthToken
    rw [if_neg (by simp)]
    by_cases hl : bytes.length = hwAuthTokenSize
    · rw [if_neg (not_not_intro hl), if_pos h1]
    · rw [if_pos hl]

/-- Witness for the amended C10 theorem at a well-formed token. -/
theorem addAuthToken_validation_witness :
    addAuthToken true (List.replicate 69 0) []
      = (responseNoError, [] ++ [List.replicate 69 0]) :=
  (addAuthToken_validation true (List.replicate 69 0) [] rfl).1 (by decide) (by decide)

/-- C10 counterexample: a vector of the wrong length submitted without the
AddAuth permission yields PermissionDenied, not InvalidArgument, because the
permission check precedes the length check. -/
theorem addAuthToken_permission_counterexample :
    addAuthToken false [] [] = (responsePermissionDenied, [])
    ∧ responsePermissionDenied ≠ errInvalidArgument := by
  exact ⟨by decide, by decide⟩

end Keystore
